import Mathlib

/-!
Verification of `custom_components/dirigera_platform/dirigera_lib_patch.py`.

The module patches a smart-home hub client.  The part with decision logic is
`HubX.create_empty_scene`, which provisions "empty" scenes as event
generators, and `HubX.delete_empty_scenes`, which removes them again by a
name-marker convention.  We embed these, together with the typed device
getters and the `set_name` methods, as pure Lean functions that return the
list of HTTP calls the Python code would issue.
-/

namespace DirigeraPatch

/-- The fixed marker that every provisioned scene name starts with
(source line 118 and line 152). -/
def sceneNameMarker : String := "dirigera_integration_empty_scene_"

/-- Embedding of `re.search(r"^(.*)_([0-9]+)$", controller_id)`:
`$` matches at the end of the string or just before a single trailing
newline, and `.` matches any character except a newline, so the pattern
matches exactly when, after discarding one trailing newline, the string is
newline-free, has a nonempty maximal trailing run of ASCII digits, and the
character just before that run is an underscore; group 2 is then that digit
run.  Returns group 2 on a match. -/
def suffixMatch (s : String) : Option String :=
  let cs := if s.data.getLast? = some '\n' then s.data.dropLast else s.data
  if cs.contains '\n' then none
  else
    let rev := cs.reverse
    let ds := rev.takeWhile Char.isDigit
    let rest := rev.dropWhile Char.isDigit
    if ds.isEmpty then none
    else if rest.head? = some '_' then some (String.mk ds.reverse)
    else none

/-- The `number_of_buttons` argument as received by `create_empty_scene`:
either Python `None`, a value that `int()` coerces to an integer `n`,
or a value on which `int()` raises. -/
inductive BtnArg where
  | none
  | intLike (n : Int)
  | malformed
deriving DecidableEq, Repr

/-- Lines 100-103: `int(number_of_buttons) if number_of_buttons is not None
else 1` wrapped in `try/except` falling back to `1`. -/
def coerceButtons : BtnArg → Int
  | BtnArg.none => 1
  | BtnArg.intLike n => n
  | BtnArg.malformed => 1

/-- Lines 112-114: the match-and-group-2 check.  `allow_multibutton` is
cleared when the regex matches and group 2 differs from `"1"`. -/
def isPrimaryId (controller_id : String) : Bool :=
  match suffixMatch controller_id with
  | some g => g == "1"
  | Option.none => true

/-- One `POST /scenes/` request as built by `_post_empty_scene`
(lines 116-138): the scene name plus the trigger payload fields. -/
structure SceneReq where
  name : String
  controllerType : String
  clickPattern : String
  buttonIndex : Nat
  deviceId : String
deriving DecidableEq, Repr

/-- Lines 117-119: the scene-name f-string. -/
def sceneName (controller_id controller_type : String) (button_index : Nat)
    (click_pattern : String) : String :=
  sceneNameMarker ++ controller_id ++ "_" ++ controller_type ++ "_" ++
    toString button_index ++ "_" ++ click_pattern

/-- The request `_post_empty_scene(click_pattern, controller_type,
button_index)` posts. -/
def mkSceneReq (controller_id click_pattern controller_type : String)
    (button_index : Nat) : SceneReq :=
  { name := sceneName controller_id controller_type button_index click_pattern
    controllerType := controller_type
    clickPattern := click_pattern
    buttonIndex := button_index
    deviceId := controller_id }

/-- The requests posted for one click pattern in the loop body of
lines 140-147: one legacy `shortcutController` request at button index 0,
then, when `allow_multibutton`, one `lightController` request for each
button index in `range(1, number_of_buttons + 1)`. -/
def scenesForClick (controller_id click : String) (allow_multibutton : Bool)
    (n : Int) : List SceneReq :=
  mkSceneReq controller_id click "shortcutController" 0 ::
    (if allow_multibutton then
      (List.range n.toNat).map
        (fun k => mkSceneReq controller_id click "lightController" (k + 1))
    else [])

/-- `HubX.create_empty_scene` (lines 83-147) as the list of scene-creation
requests it posts, in order. -/
def create_empty_scene (controller_id : String) (clicks_supported : List String)
    (number_of_buttons : BtnArg) : List SceneReq :=
  let n : Int := coerceButtons number_of_buttons
  let allow_multibutton : Bool := decide (1 < n) && isPrimaryId controller_id
  clicks_supported.flatMap
    (fun click => scenesForClick controller_id click allow_multibutton n)

/-- Embedding of Python `str.startswith`: the pattern's characters are an
initial segment of the string's characters. -/
def pyStartswith (s pat : String) : Bool :=
  pat.data.isPrefixOf s.data

/-- A scene as `HackScene` holds it (lines 223-229). -/
structure HackScene where
  id : String
  name : String
  icon : String
deriving DecidableEq, Repr

/-- `HubX.delete_empty_scenes` (lines 149-154) as the list of scene ids it
passes to `delete_scene`, given the scenes the hub returned: the loop
deletes a scene exactly when its name starts with the marker. -/
def delete_empty_scenes : List HackScene → List String
  | [] => []
  | s :: rest =>
    if pyStartswith s.name sceneNameMarker then
      s.id :: delete_empty_scenes rest
    else delete_empty_scenes rest

/-- The device payload fields the getters inspect: the raw data fetched by
`_get_device_data_by_id`. -/
structure DeviceData where
  id : String
  deviceType : String
deriving DecidableEq, Repr

/-- The patched motion-sensor object `dict_to_motion_sensor_x` builds
(lines 278-281), holding the fetched data. -/
structure MotionSensorX where
  data : DeviceData
deriving DecidableEq, Repr

/-- The patched environment-sensor object `dict_to_environment_sensor_x`
builds (lines 45-48), holding the fetched data. -/
structure EnvironmentSensorX where
  data : DeviceData
deriving DecidableEq, Repr

/-- `HubX.get_motion_sensor_by_id` (lines 166-174): raises `ValueError`
when the fetched device's type is neither `motionSensor` nor
`occupancySensor`, else wraps the data. -/
def get_motion_sensor_by_id (motion_sensor : DeviceData) :
    Except String MotionSensorX :=
  if ¬(motion_sensor.deviceType = "motionSensor" ∨
      motion_sensor.deviceType = "occupancySensor") then
    Except.error "Device is not a MotionSensor or OccupancySensor"
  else Except.ok ⟨motion_sensor⟩

/-- `HubX.get_environment_sensor_by_id` (lines 185-193): raises
`ValueError` when the fetched device's type is not `environmentSensor`,
else wraps the data. -/
def get_environment_sensor_by_id (sensor : DeviceData) :
    Except String EnvironmentSensorX :=
  if ¬(sensor.deviceType = "environmentSensor") then
    Except.error "Device is not an EnvironmentSensor"
  else Except.ok ⟨sensor⟩

/-- The parts of a device object `set_name` touches: its id, its
`capabilities.can_receive` list and its `attributes.custom_name`. -/
structure NamedDeviceState where
  id : String
  can_receive : List String
  custom_name : Option String
deriving DecidableEq, Repr

/-- The outcome of a `set_name` call: whether it raised `AssertionError`,
the device state afterwards, and the `PATCH /devices/<id>` calls issued
(each carrying the new `customName`). -/
structure SetNameResult where
  raised : Bool
  dev : NamedDeviceState
  patches : List (String × String)
deriving DecidableEq, Repr

/-- `ControllerX.set_name` (lines 208-216): raises before any hub call when
`"customName"` is missing from `capabilities.can_receive`; otherwise
patches the hub and updates `attributes.custom_name`. -/
def controllerSetName (dev : NamedDeviceState) (name : String) :
    SetNameResult :=
  if ¬("customName" ∈ dev.can_receive) then
    { raised := true, dev := dev, patches := [] }
  else
    { raised := false
      dev := { dev with custom_name := some name }
      patches := [(dev.id, name)] }

/-- `EnvironmentSensorX.set_name` (lines 37-42): identical logic. -/
def environmentSensorSetName (dev : NamedDeviceState) (name : String) :
    SetNameResult :=
  if ¬("customName" ∈ dev.can_receive) then
    { raised := true, dev := dev, patches := [] }
  else
    { raised := false
      dev := { dev with custom_name := some name }
      patches := [(dev.id, name)] }

/-- `MotionSensorX.set_name` (lines 270-275): identical logic. -/
def motionSensorSetName (dev : NamedDeviceState) (name : String) :
    SetNameResult :=
  if ¬("customName" ∈ dev.can_receive) then
    { raised := true, dev := dev, patches := [] }
  else
    { raised := false
      dev := { dev with custom_name := some name }
      patches := [(dev.id, name)] }

/-! ## Helper lemmas -/

lemma create_empty_scene_def (cid : String) (clicks : List String)
    (nb : BtnArg) :
    create_empty_scene cid clicks nb =
      clicks.flatMap (fun click =>
        scenesForClick cid click
          (decide (1 < coerceButtons nb) && isPrimaryId cid)
          (coerceButtons nb)) := rfl

lemma isPrimaryId_of_noSuffix {cid : String}
    (h : suffixMatch cid = Option.none) : isPrimaryId cid = true := by
  unfold isPrimaryId
  rw [h]

lemma isPrimaryId_eq_true_iff (cid : String) :
    isPrimaryId cid = true ↔
      (suffixMatch cid = Option.none ∨ suffixMatch cid = some "1") := by
  unfold isPrimaryId
  cases hs : suffixMatch cid with
  | none => simp
  | some g => simp

lemma mem_scenesForClick {cid click : String} {allow : Bool} {n : Int}
    {r : SceneReq} (h : r ∈ scenesForClick cid click allow n) :
    r = mkSceneReq cid click "shortcutController" 0 ∨
      ∃ k : Nat, r = mkSceneReq cid click "lightController" (k + 1) := by
  unfold scenesForClick at h
  rcases List.mem_cons.mp h with h1 | h2
  · exact Or.inl h1
  · right
    split at h2
    · rcases List.mem_map.mp h2 with ⟨k, _, hk⟩
      exact ⟨k, hk.symm⟩
    · simp at h2

lemma mem_create_empty_scene {cid : String} {clicks : List String}
    {nb : BtnArg} {r : SceneReq} (h : r ∈ create_empty_scene cid clicks nb) :
    ∃ click ∈ clicks,
      r = mkSceneReq cid click "shortcutController" 0 ∨
        ∃ k : Nat, r = mkSceneReq cid click "lightController" (k + 1) := by
  rw [create_empty_scene_def] at h
  rcases List.mem_flatMap.mp h with ⟨click, hclick, hr⟩
  exact ⟨click, hclick, mem_scenesForClick hr⟩

lemma isPrefixOf_append_self (l l2 : List Char) :
    l.isPrefixOf (l ++ l2) = true := by
  induction l with
  | nil => simp [List.isPrefixOf]
  | cons a as ih => simp [List.isPrefixOf, ih]

lemma pyStartswith_sceneName (cid ct : String) (idx : Nat) (click : String) :
    pyStartswith (sceneName cid ct idx click) sceneNameMarker = true := by
  unfold pyStartswith sceneName
  simp only [String.data_append, List.append_assoc]
  exact isPrefixOf_append_self _ _

lemma filter_shortcut_scenesForClick (cid click : String) (allow : Bool)
    (n : Int) :
    (scenesForClick cid click allow n).filter
        (fun r => r.controllerType == "shortcutController") =
      [mkSceneReq cid click "shortcutController" 0] := by
  cases allow <;>
    simp [scenesForClick, mkSceneReq, List.filter_map, Function.comp]

lemma create_eq_legacy_of_notAllow (cid : String) (clicks : List String)
    (nb : BtnArg)
    (h : (decide (1 < coerceButtons nb) && isPrimaryId cid) = false) :
    create_empty_scene cid clicks nb =
      clicks.map (fun click => mkSceneReq cid click "shortcutController" 0) := by
  rw [create_empty_scene_def, h]
  induction clicks with
  | nil => rfl
  | cons c cs ih =>
      simp [scenesForClick] at ih ⊢
      exact ih

lemma create_eq_legacy_of_coerce_one (cid : String) (clicks : List String)
    (nb : BtnArg) (h : coerceButtons nb = 1) :
    create_empty_scene cid clicks nb =
      clicks.map (fun click => mkSceneReq cid click "shortcutController" 0) := by
  apply create_eq_legacy_of_notAllow
  rw [h]
  rfl

/-! ## Claim theorems -/

/-- C1: for a controller id with no numeric `_N` suffix, button count 3 and
click patterns `["singlePress"]`, `create_empty_scene` posts exactly 4
scene-creation requests: one legacy `shortcutController` request at button
index 0 followed by `lightController` requests at button indices 1, 2, 3. -/
theorem create_noSuffix_buttons3_four_scenes (cid : String)
    (h : suffixMatch cid = Option.none) :
    create_empty_scene cid ["singlePress"] (BtnArg.intLike 3) =
      [mkSceneReq cid "singlePress" "shortcutController" 0,
       mkSceneReq cid "singlePress" "lightController" 1,
       mkSceneReq cid "singlePress" "lightController" 2,
       mkSceneReq cid "singlePress" "lightController" 3] ∧
    (create_empty_scene cid ["singlePress"] (BtnArg.intLike 3)).length = 4 := by
  have hp : isPrimaryId cid = true := isPrimaryId_of_noSuffix h
  have he : create_empty_scene cid ["singlePress"] (BtnArg.intLike 3) =
      [mkSceneReq cid "singlePress" "shortcutController" 0,
       mkSceneReq cid "singlePress" "lightController" 1,
       mkSceneReq cid "singlePress" "lightController" 2,
       mkSceneReq cid "singlePress" "lightController" 3] := by
    simp [create_empty_scene, scenesForClick, coerceButtons, hp,
      List.range_succ]
  exact ⟨he, by rw [he]; rfl⟩

/-- Witness for C1 at the suffix-free controller id `"remote"`. -/
theorem create_noSuffix_buttons3_four_scenes_witness :
    suffixMatch "remote" = Option.none ∧
      create_empty_scene "remote" ["singlePress"] (BtnArg.intLike 3) =
        [mkSceneReq "remote" "singlePress" "shortcutController" 0,
         mkSceneReq "remote" "singlePress" "lightController" 1,
         mkSceneReq "remote" "singlePress" "lightController" 2,
         mkSceneReq "remote" "singlePress" "lightController" 3] :=
  ⟨by decide, (create_noSuffix_buttons3_four_scenes "remote" (by decide)).1⟩

/-- C3: for every input, the `shortcutController` requests posted are
exactly one legacy request at button index 0 per click pattern, in order;
and when the coerced button count is 1 these legacy requests are the whole
output. -/
theorem create_legacy_scene_always (cid : String) (clicks : List String)
    (nb : BtnArg) :
    (create_empty_scene cid clicks nb).filter
        (fun r => r.controllerType == "shortcutController") =
      clicks.map (fun click => mkSceneReq cid click "shortcutController" 0) ∧
    (coerceButtons nb = 1 →
      create_empty_scene cid clicks nb =
        clicks.map (fun click => mkSceneReq cid click "shortcutController" 0)) := by
  constructor
  · rw [create_empty_scene_def]
    induction clicks with
    | nil => rfl
    | cons c cs ih =>
        rw [List.flatMap_cons, List.filter_append,
          filter_shortcut_scenesForClick, ih]
        rfl
  · exact create_eq_legacy_of_coerce_one cid clicks nb

/-- Witness for C3 at `"remote_7"` with two click patterns and button
count 1. -/
theorem create_legacy_scene_always_witness :
    (create_empty_scene "remote_7" ["singlePress", "doublePress"]
        (BtnArg.intLike 1)).filter
        (fun r => r.controllerType == "shortcutController") =
      ["singlePress", "doublePress"].map
        (fun click => mkSceneReq "remote_7" click "shortcutController" 0) ∧
    create_empty_scene "remote_7" ["singlePress", "doublePress"]
        (BtnArg.intLike 1) =
      ["singlePress", "doublePress"].map
        (fun click => mkSceneReq "remote_7" click "shortcutController" 0) :=
  ⟨(create_legacy_scene_always "remote_7" ["singlePress", "doublePress"]
      (BtnArg.intLike 1)).1,
   (create_legacy_scene_always "remote_7" ["singlePress", "doublePress"]
      (BtnArg.intLike 1)).2 rfl⟩

/-- C7: a `None` button-count argument and one on which `int()` raises are
both recovered to button count 1, so the call returns normally and posts
only the legacy scene per click pattern. -/
theorem create_malformed_buttons_fallback (cid : String)
    (clicks : List String) :
    create_empty_scene cid clicks BtnArg.none =
      clicks.map (fun click => mkSceneReq cid click "shortcutController" 0) ∧
    create_empty_scene cid clicks BtnArg.malformed =
      clicks.map (fun click => mkSceneReq cid click "shortcutController" 0) :=
  ⟨create_eq_legacy_of_coerce_one cid clicks BtnArg.none rfl,
   create_eq_legacy_of_coerce_one cid clicks BtnArg.malformed rfl⟩

/-- C10: with an empty click-pattern list, no scene-creation request is
posted, for every controller id and every button-count argument. -/
theorem create_empty_clicks_no_scenes (cid : String) (nb : BtnArg) :
    create_empty_scene cid [] nb = [] := rfl

/-- C2: with a nonempty click-pattern list, `lightController` requests are
posted iff the coerced button count exceeds 1 and the controller id either
has no numeric suffix or its regex group 2 is exactly `"1"`; in particular
`"remote_2"` with button count 3 gets only the legacy scene, while
`"remote_1"` gets the full multi-button set. -/
theorem create_multibutton_iff (cid : String) (clicks : List String)
    (nb : BtnArg) (h : clicks ≠ []) :
    ((∃ r ∈ create_empty_scene cid clicks nb,
        r.controllerType = "lightController") ↔
      (1 < coerceButtons nb ∧
        (suffixMatch cid = Option.none ∨ suffixMatch cid = some "1"))) ∧
    create_empty_scene "remote_2" ["singlePress"] (BtnArg.intLike 3) =
      [mkSceneReq "remote_2" "singlePress" "shortcutController" 0] ∧
    create_empty_scene "remote_1" ["singlePress"] (BtnArg.intLike 3) =
      [mkSceneReq "remote_1" "singlePress" "shortcutController" 0,
       mkSceneReq "remote_1" "singlePress" "lightController" 1,
       mkSceneReq "remote_1" "singlePress" "lightController" 2,
       mkSceneReq "remote_1" "singlePress" "lightController" 3] := by
  refine ⟨?_, by decide, by decide⟩
  cases hallow : (decide (1 < coerceButtons nb) && isPrimaryId cid) with
  | true =>
      have hparts := (Bool.and_eq_true _ _).mp hallow
      have hn : 1 < coerceButtons nb := of_decide_eq_true hparts.1
      have hp : suffixMatch cid = Option.none ∨ suffixMatch cid = some "1" :=
        (isPrimaryId_eq_true_iff cid).mp hparts.2
      constructor
      · intro _
        exact ⟨hn, hp⟩
      · intro _
        obtain ⟨c, hc⟩ := List.exists_mem_of_ne_nil clicks h
        refine ⟨mkSceneReq cid c "lightController" 1, ?_, rfl⟩
        rw [create_empty_scene_def]
        refine List.mem_flatMap.mpr ⟨c, hc, ?_⟩
        unfold scenesForClick
        rw [hallow, if_pos rfl]
        refine List.mem_cons_of_mem _ (List.mem_map.mpr ⟨0, ?_, rfl⟩)
        refine List.mem_range.mpr ?_
        omega
  | false =>
      have hnot : ¬(1 < coerceButtons nb ∧
          (suffixMatch cid = Option.none ∨ suffixMatch cid = some "1")) := by
        rintro ⟨hn, hp⟩
        have : (decide (1 < coerceButtons nb) && isPrimaryId cid) = true :=
          (Bool.and_eq_true _ _).mpr
            ⟨decide_eq_true hn, (isPrimaryId_eq_true_iff cid).mpr hp⟩
        rw [hallow] at this
        cases this
      constructor
      · rintro ⟨r, hr, hty⟩
        exfalso
        rw [create_eq_legacy_of_notAllow cid clicks nb hallow] at hr
        rcases List.mem_map.mp hr with ⟨c, _, hc⟩
        rw [← hc] at hty
        simp [mkSceneReq] at hty
      · intro hcond
        exact absurd hcond hnot

/-- Witness for C2 at `"remote_2"` with button count 3: no
`lightController` request is posted and the suffix condition fails. -/
theorem create_multibutton_iff_witness :
    (∃ r ∈ create_empty_scene "remote_2" ["singlePress"] (BtnArg.intLike 3),
        r.controllerType = "lightController") ↔
      (1 < coerceButtons (BtnArg.intLike 3) ∧
        (suffixMatch "remote_2" = Option.none ∨
          suffixMatch "remote_2" = some "1")) :=
  (create_multibutton_iff "remote_2" ["singlePress"] (BtnArg.intLike 3)
    (by decide)).1

/-- C4: every posted request's scene name is the fixed marker followed by
the controller id, the trigger's controller type, the button index and the
click pattern, each separated by an underscore, and its trigger's device id
is the controller id; the name is thus a function of those fields alone,
and identical inputs yield identical name lists since the embedding is a
pure function. -/
theorem sceneReq_name_format (cid : String) (clicks : List String)
    (nb : BtnArg) (r : SceneReq) (h : r ∈ create_empty_scene cid clicks nb) :
    r.name =
      "dirigera_integration_empty_scene_" ++ cid ++ "_" ++ r.controllerType ++
        "_" ++ toString r.buttonIndex ++ "_" ++ r.clickPattern ∧
    r.deviceId = cid := by
  rcases mem_create_empty_scene h with ⟨click, _, h1 | ⟨k, hk⟩⟩
  · subst h1
    exact ⟨rfl, rfl⟩
  · subst hk
    exact ⟨rfl, rfl⟩

/-- Witness for C4 at the legacy request of a singleton provisioning
call. -/
theorem sceneReq_name_format_witness :
    (mkSceneReq "remote" "singlePress" "shortcutController" 0 ∈
        create_empty_scene "remote" ["singlePress"] BtnArg.none) ∧
      (mkSceneReq "remote" "singlePress" "shortcutController" 0).name =
        "dirigera_integration_empty_scene_" ++ "remote" ++ "_" ++
          "shortcutController" ++ "_" ++ toString (0 : Nat) ++ "_" ++
          "singlePress" :=
  ⟨by decide,
   (sceneReq_name_format "remote" ["singlePress"] BtnArg.none _ (by decide)).1⟩

/-- C5: every posted request's scene name starts with the fixed marker
`"dirigera_integration_empty_scene_"`, for every input. -/
theorem sceneReq_name_has_marker (cid : String) (clicks : List String)
    (nb : BtnArg) (r : SceneReq) (h : r ∈ create_empty_scene cid clicks nb) :
    pyStartswith r.name sceneNameMarker = true := by
  rcases mem_create_empty_scene h with ⟨click, _, h1 | ⟨k, hk⟩⟩
  · subst h1
    exact pyStartswith_sceneName cid "shortcutController" 0 click
  · subst hk
    exact pyStartswith_sceneName cid "lightController" (k + 1) click

/-- Witness for C5 at the legacy request of a two-button provisioning
call on a `"_1"`-suffixed id. -/
theorem sceneReq_name_has_marker_witness :
    pyStartswith (mkSceneReq "kn_1" "doublePress" "shortcutController" 0).name
      sceneNameMarker = true :=
  sceneReq_name_has_marker "kn_1" ["doublePress"] (BtnArg.intLike 2) _
    (by decide)

/-- C6: `delete_empty_scenes` issues delete calls for exactly the scenes
whose name starts with the marker, in order, and for no others. -/
theorem delete_empty_scenes_exact (scenes : List HackScene) :
    delete_empty_scenes scenes =
      (scenes.filter (fun s => pyStartswith s.name sceneNameMarker)).map
        HackScene.id := by
  induction scenes with
  | nil => rfl
  | cons s rest ih =>
      by_cases h : pyStartswith s.name sceneNameMarker = true
      · simp [delete_empty_scenes, h, ih]
      · simp [delete_empty_scenes, h, ih]

/-- C8: `get_motion_sensor_by_id` raises `ValueError` iff the fetched
device's type is neither `motionSensor` nor `occupancySensor`, and
`get_environment_sensor_by_id` raises `ValueError` iff the type is not
`environmentSensor`; on the matching types each returns the patched sensor
wrapping the fetched data. -/
theorem typed_getters_valueError_iff (d : DeviceData) :
    ((∃ e, get_motion_sensor_by_id d = Except.error e) ↔
      ¬(d.deviceType = "motionSensor" ∨ d.deviceType = "occupancySensor")) ∧
    ((d.deviceType = "motionSensor" ∨ d.deviceType = "occupancySensor") →
      get_motion_sensor_by_id d = Except.ok ⟨d⟩) ∧
    ((∃ e, get_environment_sensor_by_id d = Except.error e) ↔
      ¬(d.deviceType = "environmentSensor")) ∧
    (d.deviceType = "environmentSensor" →
      get_environment_sensor_by_id d = Except.ok ⟨d⟩) := by
  unfold get_motion_sensor_by_id get_environment_sensor_by_id
  refine ⟨?_, ?_, ?_, ?_⟩ <;> split <;> simp_all

/-- Witness for C8 at a device of type `"motionSensor"`: the motion getter
returns it and the environment getter raises. -/
theorem typed_getters_valueError_iff_witness :
    get_motion_sensor_by_id ⟨"dev1", "motionSensor"⟩ =
      Except.ok ⟨⟨"dev1", "motionSensor"⟩⟩ ∧
    (∃ e, get_environment_sensor_by_id ⟨"dev1", "motionSensor"⟩ =
      Except.error e) :=
  ⟨(typed_getters_valueError_iff ⟨"dev1", "motionSensor"⟩).2.1 (Or.inl rfl),
   (typed_getters_valueError_iff ⟨"dev1", "motionSensor"⟩).2.2.1.mpr
     (by decide)⟩

/-- C9: each patched `set_name` raises `AssertionError` when `"customName"`
is not in `capabilities.can_receive` — issuing no patch call and leaving
the device state (including `custom_name`) unchanged — and raises no such
error when the capability is present. -/
theorem set_name_capability_check (dev : NamedDeviceState) (name : String) :
    ("customName" ∉ dev.can_receive →
      controllerSetName dev name =
        { raised := true, dev := dev, patches := [] } ∧
      environmentSensorSetName dev name =
        { raised := true, dev := dev, patches := [] } ∧
      motionSensorSetName dev name =
        { raised := true, dev := dev, patches := [] }) ∧
    ("customName" ∈ dev.can_receive →
      (controllerSetName dev name).raised = false ∧
      (environmentSensorSetName dev name).raised = false ∧
      (motionSensorSetName dev name).raised = false) := by
  unfold controllerSetName environmentSensorSetName motionSensorSetName
  constructor
  · intro h
    rw [if_pos h]
    exact ⟨rfl, rfl, rfl⟩
  · intro h
    rw [if_neg (not_not_intro h)]
    exact ⟨rfl, rfl, rfl⟩

/-- Witness for C9: a device without the capability keeps its state and
gets no patch call; one with the capability raises no error. -/
theorem set_name_capability_check_witness :
    controllerSetName ⟨"dev2", [], Option.none⟩ "kitchen" =
      { raised := true, dev := ⟨"dev2", [], Option.none⟩, patches := [] } ∧
    (motionSensorSetName ⟨"dev2", ["customName"], Option.none⟩
      "kitchen").raised = false :=
  ⟨((set_name_capability_check ⟨"dev2", [], Option.none⟩ "kitchen").1
      (by decide)).1,
   ((set_name_capability_check ⟨"dev2", ["customName"], Option.none⟩
      "kitchen").2 (by decide)).2.2⟩

end DirigeraPatch
